import Mathlib

/-!
Verification of the flores static site generator (`src/flores`) against its
natural-language specification.

The development shallowly embeds the parts of `flores/generator.py`,
`flores/server.py` and `flores/exceptions.py` that the checked claims are
about: the error/exit model (`Generator.__fail`, `ERROR_CODE_EXCEPTION_MAP`),
the image-derivative configuration validator (`Generator.__get_image_configs`),
the image resize arithmetic (`Generator.build_images`), frontmatter parsing
(`Generator.__parse_frontmatter_file` and `FRONTMATTER_REGEX`), post
collection (`Generator.collect_posts`), page output placement
(`Generator.build`) and the dev server's auto-rebuild loop (`Server.serve`).

External collaborators (the YAML parser, the PIL image decoder) are modelled
at their interface boundary: they are passed in as explicit functions or
summarized by their outcome type, exactly as the spec treats them
("delegated, specified only at their interface boundary").  Log message
strings are reproduced literally where a claim quotes them; interpolations
of Python `repr` output (which embeds brace characters) are elided and
noted at the definition.
-/

namespace Flores

/-! ### `flores/exceptions.py` -/

/-- The error codes of `FloresErrorCode` (exceptions.py, lines 47-64). -/
inductive FloresErrorCode where
  | GENERAL_ERROR
  | FILE_OR_DIR_NOT_FOUND
  | MISSING_ELEMENT
  | WRONG_TYPE_OR_FORMAT
  | TEMPLATE_ERROR
  | YAML_ERROR
  | JSON_ERROR
  | IMAGE_ERROR
  deriving DecidableEq, Repr

/-- The numeric value of each error code (exceptions.py, lines 57-64). -/
def FloresErrorCode.val : FloresErrorCode → Nat
  | .GENERAL_ERROR => 1
  | .FILE_OR_DIR_NOT_FOUND => 3
  | .MISSING_ELEMENT => 4
  | .WRONG_TYPE_OR_FORMAT => 5
  | .TEMPLATE_ERROR => 6
  | .YAML_ERROR => 7
  | .JSON_ERROR => 8
  | .IMAGE_ERROR => 9

/-- The exception classes of exceptions.py (lines 15-44), one constructor per
class.  `FloresError` is the base class and the `GENERAL_ERROR` image. -/
inductive FloresException where
  | FloresError
  | FileOrDirNotFoundError
  | MissingElementError
  | WrongTypeOrFormatError
  | TemplateError
  | YAMLError
  | JSONError
  | ImageError
  deriving DecidableEq, Repr

/-- `ERROR_CODE_EXCEPTION_MAP` (exceptions.py, lines 67-76): the exception
class raised in library mode for each error code. -/
def ERROR_CODE_EXCEPTION_MAP : FloresErrorCode → FloresException
  | .GENERAL_ERROR => .FloresError
  | .FILE_OR_DIR_NOT_FOUND => .FileOrDirNotFoundError
  | .MISSING_ELEMENT => .MissingElementError
  | .WRONG_TYPE_OR_FORMAT => .WrongTypeOrFormatError
  | .TEMPLATE_ERROR => .TemplateError
  | .YAML_ERROR => .YAMLError
  | .JSON_ERROR => .JSONError
  | .IMAGE_ERROR => .ImageError

/-! ### `Generator.__fail` (generator.py, lines 240-265) -/

/-- A fatal failure as carried through the pipeline: the taxonomy code and the
formatted message passed to `Generator.__fail`. -/
structure Failure where
  code : FloresErrorCode
  message : String
  deriving DecidableEq, Repr

/-- How a fatal failure surfaces: `sys.exit(exit_code.value)` in CLI mode, or a
raised exception of the mapped class carrying the message in library mode. -/
inductive FailSurface where
  | cliExit (exitCode : Nat)
  | raised (exc : FloresException) (message : String)
  deriving DecidableEq, Repr

/-- The observable outcome of one `Generator.__fail` call: whether the
build-directory cleanup (`self.clean()`) was attempted, and how the failure
surfaced. -/
structure FailOutcome where
  cleanupAttempted : Bool
  surface : FailSurface
  deriving DecidableEq, Repr

namespace Generator

/-- `Generator.__fail` (generator.py, lines 240-265).  The message is logged
(not modelled), then the build directory is cleaned iff `cleanUp`; in CLI mode
the process exits with the code's numeric value, otherwise the exception class
mapped from the code is raised carrying the message. -/
def fail (cliMode : Bool) (message : String) (exitCode : FloresErrorCode)
    (cleanUp : Bool) : FailOutcome :=
  { cleanupAttempted := cleanUp
    surface :=
      if cliMode then
        .cliExit exitCode.val
      else
        .raised (ERROR_CODE_EXCEPTION_MAP exitCode) message }

/-- The `__fail` call in `Generator.__init__` (generator.py, lines 220-225):
when the project directory does not exist, fail with
`FILE_OR_DIR_NOT_FOUND` and `clean_up=False`. -/
def initProjectDirFail (cliMode : Bool) (projectDir : String) : FailOutcome :=
  fail cliMode ("Invalid project directory: '" ++ projectDir ++ "'.")
    .FILE_OR_DIR_NOT_FOUND false

end Generator

/-! ### JSON/YAML values

Values flowing out of `json.loads` (the config and data files) and
`yaml.safe_load` (frontmatter blocks).  Python numbers (`int`/`float`) are
modelled as rationals; JSON object keys are strings and, as produced by
`json.loads`, unique. -/

/-- A JSON/YAML-like value. -/
inductive Val where
  | null
  | bool (b : Bool)
  | num (q : ℚ)
  | str (s : String)
  | list (xs : List Val)
  | obj (kvs : List (String × Val))

/-- The outcome of a Python code path: a normal value, a fatal failure routed
through `Generator.__fail`, or a Python exception that no handler catches and
that therefore propagates out of the generator as-is. -/
inductive PyResult (α : Type) where
  | ok (a : α)
  | fatal (f : Failure)
  | uncaught (err : String)
  deriving DecidableEq, Repr

/-- First binding of `k` in an association list (Python `d[k]` / `k in d`;
keys produced by `json.loads` are unique). -/
def lookupVal (k : String) : List (String × Val) → Option Val
  | [] => none
  | (k', v) :: kvs => if k' = k then some v else lookupVal k kvs

/-- Remove every binding of `k` (Python `d.pop(k)` on unique keys), keeping
the insertion order of the remaining keys. -/
def eraseKeyAll (k : String) (kvs : List (String × Val)) :
    List (String × Val) :=
  kvs.filter (fun kv => kv.1 ≠ k)

/-! ### `Generator.__get_image_configs` (generator.py, lines 483-591) -/

/-- An image-derivative configuration (`ImageConfig`, generator.py,
lines 110-124).  `size` covers Python `float` and `int`. -/
structure ImageConfig where
  size : ℚ
  suffix : String
  optimize : Bool
  deriving DecidableEq, Repr

/-- A Python dict key as `dict(element)` can produce one from JSON-valued
input: strings, numbers, booleans and `None` are hashable; lists and dicts
are not. -/
inductive PyKey where
  | kStr (s : String)
  | kNum (q : ℚ)
  | kBool (b : Bool)
  | kNone
  deriving DecidableEq, Repr

/-- Python `==` on dict keys.  Note that `True == 1` and `False == 0` (and
their float counterparts), so a boolean key and the corresponding number
key collide; strings and `None` only equal themselves. -/
def pyKeyBeq : PyKey → PyKey → Bool
  | .kStr a, .kStr b => a = b
  | .kNum a, .kNum b => a = b
  | .kBool a, .kBool b => a = b
  | .kBool b, .kNum q => q = (if b then 1 else 0)
  | .kNum q, .kBool b => q = (if b then 1 else 0)
  | .kNone, .kNone => true
  | _, _ => false

/-- `d[k] = v` while building a dict: an existing equal key keeps its
original position (and original key object) and takes the new value; a new
key is appended. -/
def pyDictInsert (k : PyKey) (v : Val) :
    List (PyKey × Val) → List (PyKey × Val)
  | [] => [(k, v)]
  | (k', v') :: rest =>
    if pyKeyBeq k' k then (k', v) :: rest
    else (k', v') :: pyDictInsert k v rest

/-- The hashable-key conversion inside `dict()`'s pair processing: lists
and dicts raise `TypeError: unhashable type`. -/
def pyHashableKey : Val → Option PyKey
  | .str s => some (.kStr s)
  | .num q => some (.kNum q)
  | .bool b => some (.kBool b)
  | .null => some .kNone
  | _ => none

/-- One item of `dict(sequence)`'s update sequence, as CPython treats a
JSON-valued item: a two-element list becomes a key/value pair (its first
element must be hashable); a two-character string becomes a pair of
one-character strings; a two-key dict item is iterated as its keys; any
other length raises `ValueError` ("dictionary update sequence element has
length N; 2 is required"); a non-iterable item raises `TypeError`. -/
def pyPairOfItem : Val → Except String (PyKey × Val)
  | .list [a, b] =>
    match pyHashableKey a with
    | some k => .ok (k, b)
    | none => .error "TypeError: unhashable type"
  | .list _ =>
    .error "ValueError: dictionary update sequence element has wrong length"
  | .str s =>
    match s.data with
    | [c1, c2] => .ok (.kStr ⟨[c1]⟩, .str ⟨[c2]⟩)
    | _ =>
      .error "ValueError: dictionary update sequence element has wrong length"
  | .obj [(k1, _), (k2, _)] => .ok (.kStr k1, .str k2)
  | .obj _ =>
    .error "ValueError: dictionary update sequence element has wrong length"
  | _ => .error "TypeError: object is not iterable"

/-- Left-to-right processing of `dict(sequence)`'s items. -/
def pyDictFromItems (acc : List (PyKey × Val)) :
    List Val → Except String (List (PyKey × Val))
  | [] => .ok acc
  | item :: rest =>
    match pyPairOfItem item with
    | .ok (k, v) => pyDictFromItems (pyDictInsert k v acc) rest
    | .error e => .error e

/-- `dict(image_config)` (generator.py, line 506), checked against CPython:
a mapping is copied; the empty string and the empty list convert to the
empty dict (`dict('') == {}`); a non-empty string always fails with
`ValueError` (each character is a length-1 item); a list is processed as an
update sequence of key/value items; `None`, booleans and numbers are not
iterable and raise `TypeError`. -/
def pyDict : Val → Except String (List (PyKey × Val))
  | .obj kvs => .ok (kvs.map (fun kv => (PyKey.kStr kv.1, kv.2)))
  | .str s =>
    if s = "" then .ok []
    else
      .error "ValueError: dictionary update sequence element has wrong length"
  | .list items => pyDictFromItems [] items
  | .null => .error "TypeError: object is not iterable"
  | .bool _ => .error "TypeError: object is not iterable"
  | .num _ => .error "TypeError: object is not iterable"

/-- `k in d` / `d[k]` on a built dict (first equal key wins; keys are
already deduplicated by construction). -/
def pyLookup (k : PyKey) : List (PyKey × Val) → Option Val
  | [] => none
  | (k', v) :: kvs => if pyKeyBeq k' k then some v else pyLookup k kvs

/-- `d.pop(k)`: drop the bindings equal to `k`, keeping the order of the
rest. -/
def pyErase (k : PyKey) (kvs : List (PyKey × Val)) : List (PyKey × Val) :=
  kvs.filter (fun kv => !pyKeyBeq kv.1 k)

/-- The keys as strings, or `none` at the first non-string key —
`", ".join(keys)` raises `TypeError: sequence item: expected str instance`
on a non-string key. -/
def strKeysOnly : List PyKey → Option (List String)
  | [] => some []
  | .kStr s :: rest => (strKeysOnly rest).map (s :: ·)
  | _ => none

/-- Modelled image-config error messages.  The source messages additionally
interpolate the config-file path and the Python `repr` of the offending
element and of its type; no claim quotes those interpolations and they are
elided here.  The unexpected-keys message keeps the comma-joined key list the
claim names. -/
def imagesMissingKeyMessage (k : String) : String :=
  "Missing key '" ++ k ++ "' in element in key 'images'."

/-- See `imagesMissingKeyMessage`. -/
def imagesWrongTypeMessage (expected k : String) : String :=
  "Expected type '" ++ expected ++ "' for key '" ++ k ++
    "' in element in key 'images'."

/-- See `imagesMissingKeyMessage`. -/
def imagesSizeRangeMessage : String :=
  "Expected key 'size' to be in range (0, 1] in element in key 'images'."

/-- See `imagesMissingKeyMessage`. -/
def imagesUnexpectedKeysMessage (joinedKeys : String) : String :=
  "Unexpected keys '" ++ joinedKeys ++ "' in element in key 'images'."

/-- See `imagesMissingKeyMessage`: the uncaught exception of
`", ".join(image_config_copy.keys())` when a leftover key is not a
string. -/
def joinNonStrKeysMessage : String :=
  "TypeError: sequence item: expected str instance"

/-- The body of the validation loop of `Generator.__get_image_configs`
(generator.py, lines 508-589) after the `dict()` copy: pop and check `size`
(presence, type, range), then `suffix` (presence, type), then `optimize`
(presence, type), then join the leftover keys with ", " (an uncaught
`TypeError` if one is not a string) and reject them when the joined string
is non-empty. -/
def validateImageDict (kvs0 : List (PyKey × Val)) : PyResult ImageConfig :=
  match pyLookup (.kStr "size") kvs0 with
  | none => .fatal ⟨.MISSING_ELEMENT, imagesMissingKeyMessage "size"⟩
  | some sizeVal =>
    let kvs := pyErase (.kStr "size") kvs0
    match sizeVal with
    | .num size =>
      if size ≤ 0 ∨ 1 < size then
        .fatal ⟨.WRONG_TYPE_OR_FORMAT, imagesSizeRangeMessage⟩
      else
        match pyLookup (.kStr "suffix") kvs with
        | none => .fatal ⟨.MISSING_ELEMENT, imagesMissingKeyMessage "suffix"⟩
        | some suffixVal =>
          let kvs := pyErase (.kStr "suffix") kvs
          match suffixVal with
          | .str suffix =>
            match pyLookup (.kStr "optimize") kvs with
            | none =>
              .fatal ⟨.MISSING_ELEMENT, imagesMissingKeyMessage "optimize"⟩
            | some optimizeVal =>
              let kvs := pyErase (.kStr "optimize") kvs
              match optimizeVal with
              | .bool optimize =>
                match strKeysOnly (kvs.map Prod.fst) with
                | none => .uncaught joinNonStrKeysMessage
                | some keys =>
                  let remaining := String.intercalate ", " keys
                  if remaining ≠ "" then
                    .fatal ⟨.WRONG_TYPE_OR_FORMAT,
                      imagesUnexpectedKeysMessage remaining⟩
                  else
                    .ok ⟨size, suffix, optimize⟩
              | _ =>
                .fatal ⟨.WRONG_TYPE_OR_FORMAT,
                  imagesWrongTypeMessage "bool" "optimize"⟩
          | _ =>
            .fatal ⟨.WRONG_TYPE_OR_FORMAT,
              imagesWrongTypeMessage "str" "suffix"⟩
    | _ =>
      .fatal ⟨.WRONG_TYPE_OR_FORMAT,
        imagesWrongTypeMessage "float' or 'int" "size"⟩

/-- One element of the `images` list (generator.py, lines 503-589): the
`dict(image_config)` copy — whose failure is an uncaught Python exception —
followed by the checklist of `validateImageDict`. -/
def validateImageElement (e : Val) : PyResult ImageConfig :=
  match pyDict e with
  | .error err => .uncaught err
  | .ok kvs => validateImageDict kvs

/-- The validation loop of `Generator.__get_image_configs`: elements are
processed left to right and the first failing element aborts the build. -/
def validateImageElements : List Val → PyResult (List ImageConfig)
  | [] => .ok []
  | e :: es =>
    match validateImageElement e with
    | .ok c =>
      match validateImageElements es with
      | .ok cs => .ok (c :: cs)
      | .fatal f => .fatal f
      | .uncaught err => .uncaught err
    | .fatal f => .fatal f
    | .uncaught err => .uncaught err

/-- `Generator.__get_image_configs` (generator.py, lines 483-591).  The
argument is `self.config.get("images")` (`none` when the key is absent).
Absent: the single default spec.  Not a list: fatal wrong-type.  A list:
each element validated in order. -/
def getImageConfigs (images : Option Val) : PyResult (List ImageConfig) :=
  match images with
  | none => .ok [⟨1, "", false⟩]
  | some (.list es) => validateImageElements es
  | some _ =>
    .fatal ⟨.WRONG_TYPE_OR_FORMAT, "Expected type 'list' for key 'images'."⟩

/-! Spec-side rendition of the claim's validation checklist: the element's
checks computed independently over the original (post-`dict()`) mapping,
first failure in the claim's listed order.  Compared with
`validateImageDict`, which interleaves `pop` calls with the checks the way
the source does. -/

/-- The claim's leftover keys, computed directly on the original mapping:
every key other than `size`, `suffix` and `optimize`, in insertion order. -/
def specLeftoverKeys (kvs : List (PyKey × Val)) : List PyKey :=
  (kvs.map Prod.fst).filter
    (fun k => !pyKeyBeq k (.kStr "size") && !pyKeyBeq k (.kStr "suffix") &&
      !pyKeyBeq k (.kStr "optimize"))

/-- The claim's ordered checklist for one converted mapping element:
missing `size`, wrong type for `size`, `size` out of (0,1], missing
`suffix`, wrong type for `suffix`, missing `optimize`, wrong type for
`optimize`, leftover keys comma-joined (with the join's `TypeError` on a
non-string key). -/
def specImageElement (kvs : List (PyKey × Val)) : PyResult ImageConfig :=
  match pyLookup (.kStr "size") kvs, pyLookup (.kStr "suffix") kvs,
      pyLookup (.kStr "optimize") kvs with
  | none, _, _ => .fatal ⟨.MISSING_ELEMENT, imagesMissingKeyMessage "size"⟩
  | some (.num size), suffixVal?, optimizeVal? =>
    if size ≤ 0 ∨ 1 < size then
      .fatal ⟨.WRONG_TYPE_OR_FORMAT, imagesSizeRangeMessage⟩
    else
      match suffixVal?, optimizeVal? with
      | none, _ => .fatal ⟨.MISSING_ELEMENT, imagesMissingKeyMessage "suffix"⟩
      | some (.str suffix), optimizeVal? =>
        match optimizeVal? with
        | none =>
          .fatal ⟨.MISSING_ELEMENT, imagesMissingKeyMessage "optimize"⟩
        | some (.bool optimize) =>
          match strKeysOnly (specLeftoverKeys kvs) with
          | none => .uncaught joinNonStrKeysMessage
          | some keys =>
            let remaining := String.intercalate ", " keys
            if remaining ≠ "" then
              .fatal ⟨.WRONG_TYPE_OR_FORMAT,
                imagesUnexpectedKeysMessage remaining⟩
            else
              .ok ⟨size, suffix, optimize⟩
        | some _ =>
          .fatal ⟨.WRONG_TYPE_OR_FORMAT,
            imagesWrongTypeMessage "bool" "optimize"⟩
      | some _, _ =>
        .fatal ⟨.WRONG_TYPE_OR_FORMAT, imagesWrongTypeMessage "str" "suffix"⟩
  | some _, _, _ =>
    .fatal ⟨.WRONG_TYPE_OR_FORMAT,
      imagesWrongTypeMessage "float' or 'int" "size"⟩

/-! ### `Generator.build_images` (generator.py, lines 1299-1365) -/

/-- The pixel dimensions of a decoded source image. -/
structure SourceImage where
  width : Nat
  height : Nat
  deriving DecidableEq, Repr

/-- What one (source image, derivative spec) pair produces in
`Generator.build_images`: a byte-for-byte copy, a resized re-encode with the
given output dimensions, or a fatal `ImageError`. -/
inductive ImageBuildResult where
  | copied
  | resized (width height : Nat) (optimize : Bool)
  | failed (f : Failure)
  deriving DecidableEq, Repr

/-- `dest_image_size` (generator.py, lines 1355-1358): Python's
`int(dim * size_factor)` truncates toward zero, which on these non-negative
products is the floor. -/
def destImageSize (img : SourceImage) (sizeFactor : ℚ) : Nat × Nat :=
  ((⌊(img.width : ℚ) * sizeFactor⌋).toNat,
    (⌊(img.height : ℚ) * sizeFactor⌋).toNat)

/-- The per-derivative body of `Generator.build_images` (generator.py,
lines 1315-1363).  `decode` is the outcome of `PIL.Image.open` on the source
file (`none`: the decoder raised).  `size == 1 and not optimize` copies the
file without decoding; otherwise the image is decoded (failure is a fatal
`ImageError`), resized to `destImageSize` and re-encoded with the spec's
`optimize` flag. -/
def buildImageDerivative (decode : Option SourceImage) (cfg : ImageConfig) :
    ImageBuildResult :=
  if cfg.size = 1 ∧ cfg.optimize = false then
    .copied
  else
    match decode with
    | none =>
      .failed ⟨.IMAGE_ERROR, "Cannot identify image file."⟩
    | some img =>
      let (w, h) := destImageSize img cfg.size
      .resized w h cfg.optimize

/-- The output pixel dimensions recorded in an `ImageBuildResult`, when the
result is a resize. -/
def ImageBuildResult.dims : ImageBuildResult → Option (Nat × Nat)
  | .resized w h _ => some (w, h)
  | _ => none

/-- Python's `round` on a rational: nearest integer, ties to the nearest even
integer (banker's rounding).  Used only to state the claim's `round`
prediction, never by the code model. -/
def pyRound (q : ℚ) : ℤ :=
  if q - ⌊q⌋ < 1/2 then ⌊q⌋
  else if 1/2 < q - ⌊q⌋ then ⌊q⌋ + 1
  else if ⌊q⌋ % 2 = 0 then ⌊q⌋ else ⌊q⌋ + 1

/-! ### `Generator.__parse_frontmatter_file` (generator.py, lines 801-845)

`FRONTMATTER_REGEX = r"---\n(((?!---)[\s\S])*)\n?---"` (generator.py,
line 147), applied with `re.search`.  A match of this pattern at position
`i` requires the four characters `---\n` at `i`; the group then consumes
characters one at a time, each under a negative lookahead forbidding a
position where `---` starts, so it extends exactly up to the first
occurrence of `---` at or after `i + 4`; the optional `\n?` matches empty
there and the literal `---` closes the match.  `re.search` returns the
match at the leftmost position where one exists. -/

/-- Three dashes, the frontmatter delimiter. -/
def dashes : List Char := ['-', '-', '-']

/-- The opening delimiter as matched by the regex: three dashes and a
newline. -/
def openDelim : List Char := ['-', '-', '-', '\n']

/-- Offset of the first occurrence of `---` in `s`, if any. -/
def findTripleDash : List Char → Option Nat
  | [] => none
  | c :: cs =>
    if dashes.isPrefixOf (c :: cs) then some 0
    else (findTripleDash cs).map (· + 1)

/-- Attempt to match `FRONTMATTER_REGEX` anchored at the head of `s`:
on success, the pair of the regex group (the frontmatter block) and the text
after the whole match (after the closing `---`). -/
def fmMatchHere (s : List Char) : Option (List Char × List Char) :=
  if openDelim.isPrefixOf s then
    let rest := s.drop 4
    match findTripleDash rest with
    | some k => some (rest.take k, rest.drop (k + 3))
    | none => none
  else none

/-- `re.search(FRONTMATTER_REGEX, raw_content)`: the match at the leftmost
position where the pattern matches, as (group, text after the match). -/
def fmSearch : List Char → Option (List Char × List Char)
  | [] => none
  | c :: cs =>
    match fmMatchHere (c :: cs) with
    | some r => some r
    | none => fmSearch cs

/-- Python `str.isspace` on the ASCII whitespace characters (the exotic
Unicode code points Python also treats as whitespace do not occur in the
claims and are not modelled). -/
def isPySpace (c : Char) : Bool :=
  c = ' ' ∨ c = '\t' ∨ c = '\n' ∨ c = '\r' ∨ c = '\x0b' ∨ c = '\x0c'

/-- Python `str.strip()`: drop whitespace from both ends. -/
def pyStrip (s : List Char) : List Char :=
  ((s.dropWhile isPySpace).reverse.dropWhile isPySpace).reverse

/-- Python truthiness on a `Val`; `yaml.safe_load(...) or {}` replaces any
falsy load result (`None` from an empty document, but also `{}`, `[]`, `""`,
`0`, `False`) by the empty mapping. -/
def pyFalsy : Val → Bool
  | .null => true
  | .bool b => !b
  | .num q => q = 0
  | .str s => s = ""
  | .list xs => xs.isEmpty
  | .obj kvs => kvs.isEmpty

/-- The outcome of `yaml.safe_load` on a frontmatter block, at the interface
boundary of the delegated PyYAML parser: a loaded value (`Val.null` models
Python `None`, returned for an empty document), or one of PyYAML's exception
classes.  `yaml.parser.ParserError` is a distinct class from
`yaml.scanner.ScannerError` (neither derives from the other; both derive
from `yaml.YAMLError`), and `Generator.__parse_frontmatter_file` catches
only the former. -/
inductive YamlOutcome where
  | ok (v : Val)
  | parserError
  | scannerError
  | otherError

/-- `Generator.__parse_frontmatter_file` (generator.py, lines 801-845), over
the contents of the file at `filepath` and the delegated `yaml.safe_load`
passed in as `yaml`.  No regex match: fatal `MISSING_ELEMENT`.  A match:
the group is handed to `yaml.safe_load`; a `ParserError` is converted to the
fatal `YAML_ERROR`, any other exception escapes the `except` clause and
propagates uncaught; a loaded falsy value becomes the empty mapping.  The
returned content is everything after the closing delimiter, stripped. -/
def parseFrontmatterFile (yaml : String → YamlOutcome) (filepath : String)
    (rawContent : String) : PyResult (Val × String) :=
  match fmSearch rawContent.data with
  | none => .fatal ⟨.MISSING_ELEMENT, filepath ++ ": Missing frontmatter."⟩
  | some (group, rest) =>
    match yaml ⟨group⟩ with
    | .ok v =>
      let frontmatter := if pyFalsy v then Val.obj [] else v
      .ok (frontmatter, ⟨pyStrip rest⟩)
    | .parserError =>
      .fatal ⟨.YAML_ERROR,
        filepath ++ ": Error parsing frontmatter (invalid YAML)."⟩
    | .scannerError => .uncaught "yaml.scanner.ScannerError"
    | .otherError => .uncaught "uncaught exception from yaml.safe_load"

/-- A concrete `yaml.safe_load` at the interface boundary, for the block
`"a: 'x\n"`: PyYAML's scanner raises `yaml.scanner.ScannerError` ("while
scanning a quoted scalar ... found unexpected end of stream") on an
unterminated single-quoted scalar, before the parser stage is reached, so
the exception is not a `yaml.parser.ParserError`. -/
def yamlScannerAtUnterminatedQuote (s : String) : YamlOutcome :=
  if s = "a: 'x\n" then .scannerError else .ok .null

/-! ### Path helpers (`os.path` on POSIX, as used by the generator) -/

/-- `os.path.split(p)[1]`: everything after the last slash. -/
def baseName (p : List Char) : List Char :=
  (p.reverse.takeWhile (fun c => c ≠ '/')).reverse

/-- `os.path.split(p)[0]` (without its trailing slash): everything before
the last slash. -/
def dirName (p : List Char) : List Char :=
  ((p.reverse.dropWhile (fun c => c ≠ '/')).drop 1).reverse

/-- `os.path.splitext` on a basename: split at the last dot, unless every
character before that dot is itself a dot (leading dots never start an
extension); the extension keeps its dot. -/
def splitExtBase (fname : List Char) : List Char × List Char :=
  let revTail := fname.reverse.takeWhile (fun c => c ≠ '.')
  if revTail.length = fname.length then
    (fname, [])
  else
    let stem := fname.take (fname.length - revTail.length - 1)
    if stem.all (fun c => c = '.') then
      (fname, [])
    else
      (stem, fname.drop (fname.length - revTail.length - 1))

/-- `Generator.__split_filepath_elements` (generator.py, lines 593-603):
(base directory, filename, extension without its leading dot). -/
def splitFilepathElements (p : String) : String × String × String :=
  let fname := baseName p.data
  let (stem, ext) := splitExtBase fname
  (⟨dirName p.data⟩, ⟨stem⟩, ⟨ext.drop 1⟩)

/-- String prefix test on the underlying characters (`str.startswith`). -/
def strStartsWith (s p : String) : Bool := p.data.isPrefixOf s.data

/-- String suffix test on the underlying characters (`str.endswith`). -/
def strEndsWith (s p : String) : Bool := p.data.isSuffixOf s.data

/-- `posixpath.join` on two components: an absolute second component
replaces the first, otherwise a slash separates them unless one is already
there. -/
def osJoin2 (a b : String) : String :=
  if strStartsWith b "/" then b
  else if a = "" ∨ strEndsWith a "/" then a ++ b
  else a ++ "/" ++ b

/-- `posixpath.join` on three components. -/
def osJoin3 (a b c : String) : String := osJoin2 (osJoin2 a b) c

/-- Python `str.split(sep)` for a one-character separator (the generator
only splits on `"-"`): `"".split(sep) == [""]`, and adjacent separators
yield empty segments. -/
def splitOnChar (sep : Char) : List Char → List (List Char)
  | [] => [[]]
  | c :: cs =>
    let r := splitOnChar sep cs
    if c = sep then [] :: r
    else
      match r with
      | h :: t => (c :: h) :: t
      | [] => [[c]]

/-- `filename.split("-")` as a list of strings. -/
def splitOnDash (s : String) : List String :=
  (splitOnChar '-' s.data).map (fun cs => (⟨cs⟩ : String))

/-! ### Dates: `datetime.strptime(date_string, "%Y-%m-%d %H:%M:%S %z")`
(generator.py, line 1078) and the `strftime` fields of `PostDateInfo`
(generator.py, lines 1087-1098), at the delegated `datetime` library's
interface boundary. -/

/-- An aware `datetime` as produced by `strptime` with the generator's fixed
format: the civil fields and the UTC offset in minutes. -/
structure PyDateTime where
  year : Nat
  month : Nat
  day : Nat
  hour : Nat
  minute : Nat
  second : Nat
  tzMinutes : ℤ
  deriving DecidableEq, Repr

/-- Gregorian leap year. -/
def isLeapYear (y : Nat) : Bool :=
  (y % 4 = 0 ∧ y % 100 ≠ 0) ∨ y % 400 = 0

/-- Days in a month of the proleptic Gregorian calendar. -/
def daysInMonth (y m : Nat) : Nat :=
  if m = 2 then (if isLeapYear y then 29 else 28)
  else if m = 4 ∨ m = 6 ∨ m = 9 ∨ m = 11 then 30
  else 31

/-- Days between 1970-01-01 and the civil date y-m-d (Hinnant's
days-from-civil; intermediate values are non-negative for y ≥ 1, so natural
floor division applies throughout). -/
def daysFromCivil (y m d : Nat) : ℤ :=
  let yAdj := if m ≤ 2 then y - 1 else y
  let era := yAdj / 400
  let yoe := yAdj % 400
  let mp := if 2 < m then m - 3 else m + 9
  let doy := (153 * mp + 2) / 5 + (d - 1)
  let doe := yoe * 365 + yoe / 4 - yoe / 100 + doy
  (↑(era * 146097 + doe) : ℤ) - 719468

/-- `datetime.timestamp()`: seconds since the epoch.  The parsed format has
no sub-second field, so the value is integral. -/
def PyDateTime.timestamp (dt : PyDateTime) : ℤ :=
  daysFromCivil dt.year dt.month dt.day * 86400 +
    dt.hour * 3600 + dt.minute * 60 + dt.second - dt.tzMinutes * 60

/-- `strftime("%B")`: full month name (1-based). -/
def monthName (m : Nat) : String :=
  ["January", "February", "March", "April", "May", "June", "July",
    "August", "September", "October", "November", "December"].getD (m - 1) ""

/-- `strftime("%A")`: full weekday name.  1970-01-01 (epoch day 0) was a
Thursday, and `%` on ℤ is Euclidean, so the index is total. -/
def dayName (y m d : Nat) : String :=
  ["Thursday", "Friday", "Saturday", "Sunday", "Monday", "Tuesday",
    "Wednesday"].getD (daysFromCivil y m d % 7).toNat ""

/-- Two-digit zero padding (`strftime("%m")` / `strftime("%d")`). -/
def padTwo (n : Nat) : String :=
  if n < 10 then "0" ++ toString n else toString n

/-- Greedy parse of one numeric `strptime` field: the leading digit run
capped at `maxLen` digits (at least one).  The format's separators are
non-digits, so the cap-greedy take agrees with the regex engine's
backtracking. -/
def parseNumField (s : List Char) (maxLen : Nat) :
    Option (Nat × List Char) :=
  let ds := (s.takeWhile Char.isDigit).take maxLen
  if ds.isEmpty then none
  else some (ds.foldl (fun acc c => acc * 10 + (c.toNat - 48)) 0,
    s.drop ds.length)

/-- Expect one literal character. -/
def expectChar (c : Char) : List Char → Option (List Char)
  | [] => none
  | x :: xs => if x = c then some xs else none

/-- The shape pass of `datetime.strptime(s, "%Y-%m-%d %H:%M:%S %z")`:
the regex-level match of the fixed format, with no range validation yet.
The `%z` alternatives `Z` and `±HH:MM` that CPython also accepts are not
exercised by any claim and are not modelled. -/
def strptimeRawFields (s : String) : Option PyDateTime := do
  let (y, s1) ← parseNumField s.data 4
  let s2 ← expectChar '-' s1
  let (mo, s3) ← parseNumField s2 2
  let s4 ← expectChar '-' s3
  let (d, s5) ← parseNumField s4 2
  let s6 ← expectChar ' ' s5
  let (h, s7) ← parseNumField s6 2
  let s8 ← expectChar ':' s7
  let (mi, s9) ← parseNumField s8 2
  let s10 ← expectChar ':' s9
  let (sec, s11) ← parseNumField s10 2
  let s12 ← expectChar ' ' s11
  let (sign, s13) ←
    match s12 with
    | '+' :: r => some ((1 : ℤ), r)
    | '-' :: r => some ((-1 : ℤ), r)
    | _ => none
  let (tzh, s14) ← parseNumField s13 2
  let (tzm, s15) ← parseNumField s14 2
  if s15.isEmpty then
    some ⟨y, mo, d, h, mi, sec, sign * (tzh * 60 + tzm)⟩
  else
    none

/-- The range validation of `strptime`/the `datetime` constructor: year in
`MINYEAR..MAXYEAR`, month 1-12, day valid for the month, time fields in
range, and the UTC offset under a day (the modelled `±HHMM` shape bounds it
by 23:59). -/
def pyDateTimeValid (dt : PyDateTime) : Bool :=
  1 ≤ dt.year ∧ dt.year ≤ 9999 ∧ 1 ≤ dt.month ∧ dt.month ≤ 12 ∧
    1 ≤ dt.day ∧ dt.day ≤ daysInMonth dt.year dt.month ∧
    dt.hour ≤ 23 ∧ dt.minute ≤ 59 ∧ dt.second ≤ 59 ∧
    dt.tzMinutes.natAbs ≤ 23 * 60 + 59

/-- `datetime.strptime(s, "%Y-%m-%d %H:%M:%S %z")`: `none` models the
`ValueError` cases — a shape mismatch, unconverted trailing data, or an
out-of-range field value. -/
def strptimePostFormat (s : String) : Option PyDateTime :=
  match strptimeRawFields s with
  | some dt => if pyDateTimeValid dt then some dt else none
  | none => none

/-! ### `Generator.collect_posts` (generator.py, lines 955-1152) -/

/-- `PostDateInfo` (generator.py, lines 43-71), with the fields as the
`strftime` calls of lines 1087-1098 produce them.  `timestamp` is
`date.timestamp()`; the parsed format has no sub-second field, so the float
is integral and modelled as ℤ. -/
structure PostDateInfo where
  year : String
  month : String
  month_padded : String
  month_name : String
  month_name_short : String
  day : String
  day_padded : String
  day_name : String
  day_name_short : String
  timestamp : ℤ
  deriving DecidableEq, Repr

/-- The `PostDateInfo` built from a parsed date (generator.py,
lines 1087-1098). -/
def postDateInfoOf (dt : PyDateTime) : PostDateInfo :=
  { year := toString dt.year
    month := toString dt.month
    month_padded := padTwo dt.month
    month_name := monthName dt.month
    month_name_short := (monthName dt.month).take 3
    day := toString dt.day
    day_padded := padTwo dt.day
    day_name := dayName dt.year dt.month dt.day
    day_name_short := (dayName dt.year dt.month dt.day).take 3
    timestamp := dt.timestamp }

/-- A collected post (`Post`, generator.py, lines 74-107).  `extra` holds
the user's remaining frontmatter keys (`post_data = dict(frontmatter)` after
the pops), which the identity fields overwrite by construction. -/
structure Post where
  template : String
  title : String
  date : PostDateInfo
  categories : List String
  tags : List String
  content : String
  name : String
  source_file : String
  base_address : String
  url : String
  is_draft : Bool
  extra : List (String × Val)

/-- All elements as strings, or `none` at the first element of another type
(the per-element checks of the `categories`/`tags` loops, generator.py,
lines 1015-1023 and 1034-1042). -/
def valsAsStrings : List Val → Option (List String)
  | [] => some []
  | .str s :: vs => (valsAsStrings vs).map (s :: ·)
  | _ => none

/-- The date cross-validation of generator.py, lines 1100-1123: filename
year against `%Y`, filename month against padded `%m`, filename day against
padded `%d`, in that order, each mismatch fatal with the source's message. -/
def checkDateMismatch (path fy fmo fd : String) (info : PostDateInfo) :
    Option Failure :=
  if fy ≠ info.year then
    some ⟨.WRONG_TYPE_OR_FORMAT,
      path ++ ": Year mismatch; '" ++ fy ++ "' in the filename, but '" ++
        info.year ++ "' in the file."⟩
  else if fmo ≠ info.month_padded then
    some ⟨.WRONG_TYPE_OR_FORMAT,
      path ++ ": Month mismatch; '" ++ fmo ++ "' in the filename, but '" ++
        info.month_padded ++ "' in the file."⟩
  else if fd ≠ info.day_padded then
    some ⟨.WRONG_TYPE_OR_FORMAT,
      path ++ ": Day mismatch; '" ++ fd ++ "' in the filename, but '" ++
        info.day_padded ++ "' in the file."⟩
  else
    none

/-- Tail of `collect_posts`'s loop body from the `date` parse on
(generator.py, lines 1077-1147): parse the date string, build the date info,
cross-validate against the filename, assemble the `Post`.  The `ValueError`
message re-formatting of lines 1080-1081 is modelled by the dominant
"does not match format" message (no claim quotes it). -/
def finishPost (path content template title : String)
    (categories tags : List String) (fy fmo fd name : String)
    (extra : List (String × Val)) (isDraft : Bool) (dateString : String) :
    PyResult Post :=
  match strptimePostFormat dateString with
  | none =>
    .fatal ⟨.WRONG_TYPE_OR_FORMAT,
      path ++ ": Time data '" ++ dateString ++
        "' does not match format '%Y-%m-%d %H:%M:%S %z'."⟩
  | some dt =>
    let info := postDateInfoOf dt
    match checkDateMismatch path fy fmo fd info with
    | some f => .fatal f
    | none =>
      let base_address := osJoin3 fy fmo fd
      .ok
        { template := template
          title := title
          date := info
          categories := categories
          tags := tags
          content := content
          name := name
          source_file := path
          base_address := base_address
          url := osJoin3 "/" base_address name
          is_draft := isDraft
          extra := extra }

/-- The loop body of `Generator.collect_posts` (generator.py,
lines 975-1149) for one post file, given as (path, file contents):
frontmatter parse, mandatory `template`/`title` (presence then type),
`categories`/`tags` (list then element types, default empty), filename shape
`YYYY-MM-DD-<name>` (at least 4 hyphen segments), the `date` key (type
check, or the midnight-UTC synthesis from the filename), then `finishPost`.
A frontmatter document that is not a mapping would hit Python `in`/`pop` on
a non-dict; no claim exercises that and it is modelled as an uncaught
`TypeError`.  Type names and Python `repr`s interpolated into the wrong-type
messages are elided (no claim quotes them). -/
def collectPost (yaml : String → YamlOutcome) (draftFilePaths : List String)
    (postFile : String × String) : PyResult Post :=
  let (path, contents) := postFile
  match parseFrontmatterFile yaml path contents with
  | .fatal f => .fatal f
  | .uncaught e => .uncaught e
  | .ok (fmVal, content) =>
    match fmVal with
    | .obj fm =>
      match lookupVal "template" fm with
      | none =>
        .fatal ⟨.MISSING_ELEMENT,
          path ++ ": Missing 'template' key in frontmatter."⟩
      | some templateVal =>
        match lookupVal "title" fm with
        | none =>
          .fatal ⟨.MISSING_ELEMENT,
            path ++ ": Missing 'title' key in frontmatter."⟩
        | some titleVal =>
          let fm := eraseKeyAll "title" (eraseKeyAll "template" fm)
          match templateVal, titleVal with
          | .str template, .str title =>
            let categoriesVal := (lookupVal "categories" fm).getD (.list [])
            let fm := eraseKeyAll "categories" fm
            match categoriesVal with
            | .list catVals =>
              match valsAsStrings catVals with
              | none =>
                .fatal ⟨.WRONG_TYPE_OR_FORMAT,
                  path ++ ": Expected type 'str' for a category."⟩
              | some categories =>
                let tagsVal := (lookupVal "tags" fm).getD (.list [])
                let fm := eraseKeyAll "tags" fm
                match tagsVal with
                | .list tagVals =>
                  match valsAsStrings tagVals with
                  | none =>
                    .fatal ⟨.WRONG_TYPE_OR_FORMAT,
                      path ++ ": Expected type 'str' for a tag."⟩
                  | some tags =>
                    let (_, filename, _) := splitFilepathElements path
                    match splitOnDash filename with
                    | fy :: fmo :: fd :: n :: rest =>
                      let name := String.intercalate "-" (n :: rest)
                      let dateVal? := lookupVal "date" fm
                      let fm := eraseKeyAll "date" fm
                      let isDraft := draftFilePaths.contains path
                      match dateVal? with
                      | some (.str ds) =>
                        finishPost path content template title categories
                          tags fy fmo fd name fm isDraft ds
                      | some _ =>
                        .fatal ⟨.WRONG_TYPE_OR_FORMAT,
                          path ++ ": Expected type 'str' for key 'date'."⟩
                      | none =>
                        finishPost path content template title categories
                          tags fy fmo fd name fm isDraft
                          (fy ++ "-" ++ fmo ++ "-" ++ fd ++
                            " 00:00:00 +0000")
                    | _ =>
                      .fatal ⟨.WRONG_TYPE_OR_FORMAT,
                        path ++ ": Post files should be of the form " ++
                          "'YYYY-MM-DD-post-title-here'."⟩
                | _ =>
                  .fatal ⟨.WRONG_TYPE_OR_FORMAT,
                    path ++ ": Expected type 'list' for key 'tags'."⟩
            | _ =>
              .fatal ⟨.WRONG_TYPE_OR_FORMAT,
                path ++ ": Expected type 'list' for key 'categories'."⟩
          | _, _ =>
            .fatal ⟨.WRONG_TYPE_OR_FORMAT,
              path ++ ": Expected type 'str' for key 'template' or 'title'."⟩
    | _ => .uncaught "TypeError: frontmatter is not a mapping"

/-- The `for post_file in files` loop of `collect_posts`: left to right, the
first failing file aborts. -/
def collectPostsLoop (yaml : String → YamlOutcome)
    (draftFilePaths : List String) :
    List (String × String) → PyResult (List Post)
  | [] => .ok []
  | f :: fs =>
    match collectPost yaml draftFilePaths f with
    | .ok p =>
      match collectPostsLoop yaml draftFilePaths fs with
      | .ok ps => .ok (p :: ps)
      | .fatal e => .fatal e
      | .uncaught e => .uncaught e
    | .fatal e => .fatal e
    | .uncaught e => .uncaught e

/-- Stable insertion keeping timestamps descending: a new post moves past
exactly the strictly-older posts. -/
def insertPostByTsDesc (p : Post) : List Post → List Post
  | [] => [p]
  | q :: qs =>
    if q.date.timestamp < p.date.timestamp then p :: q :: qs
    else q :: insertPostByTsDesc p qs

/-- `sorted(posts, key=lambda post: post["date"]["timestamp"], reverse=True)`
(generator.py, line 1152).  Python's `sorted` is a stable sort; a stable
descending-by-key sort is extensionally unique, modelled here as stable
insertion sort. -/
def sortPostsByTsDesc (ps : List Post) : List Post :=
  ps.foldl (fun acc p => insertPostByTsDesc p acc) []

/-- `Generator.collect_posts` (generator.py, lines 955-1152).  Post and
draft files are given as (path, contents) pairs; drafts are appended when
`includeDrafts` (`files += self.draft_files`), and `is_draft` is decided by
membership of the path in the draft file list (`post_file in
self.draft_files`), never by a frontmatter key. -/
def collectPosts (yaml : String → YamlOutcome)
    (postFiles draftFiles : List (String × String)) (includeDrafts : Bool) :
    PyResult (List Post) :=
  let files := postFiles ++ (if includeDrafts then draftFiles else [])
  match collectPostsLoop yaml (draftFiles.map Prod.fst) files with
  | .ok posts => .ok (sortPostsByTsDesc posts)
  | .fatal e => .fatal e
  | .uncaught e => .uncaught e

/-! ### `Generator.collect_pages` (generator.py, lines 887-930) and the page
pass of `Generator.build` (generator.py, lines 1443-1490) -/

/-- A collected page (`Page`, generator.py, lines 28-40).  `extra` holds the
remaining user frontmatter keys of `page_data = dict(frontmatter)`: the
source overwrites `name`, `content` and `source_file` after the copy
(lines 913-919), so user keys of those names are dropped here; every other
frontmatter key — including any `permalink` — is carried along untouched. -/
structure Page where
  template : String
  content : String
  name : String
  source_file : String
  extra : List (String × Val)

/-- The loop body of `Generator.collect_pages` for one page file, given as
(path, file contents): frontmatter parse, mandatory `template` (presence
then type), then the record assembly with `name` derived from the filename.
No other frontmatter key is inspected; in particular a `permalink` key is
neither validated nor used. -/
def collectPage (yaml : String → YamlOutcome) (pageFile : String × String) :
    PyResult Page :=
  let (path, contents) := pageFile
  match parseFrontmatterFile yaml path contents with
  | .fatal f => .fatal f
  | .uncaught e => .uncaught e
  | .ok (fmVal, content) =>
    match fmVal with
    | .obj fm =>
      match lookupVal "template" fm with
      | none =>
        .fatal ⟨.MISSING_ELEMENT,
          path ++ ": Missing 'template' key in frontmatter."⟩
      | some (.str template) =>
        let (_, name, _) := splitFilepathElements path
        .ok
          { template := template
            content := content
            name := name
            source_file := path
            extra :=
              eraseKeyAll "source_file"
                (eraseKeyAll "content" (eraseKeyAll "name" fm)) }
      | some _ =>
        .fatal ⟨.WRONG_TYPE_OR_FORMAT,
          path ++ ": Expected type 'str' for key 'template'."⟩
    | _ => .uncaught "TypeError: frontmatter is not a mapping"

/-- The output files written for one page by the page pass of
`Generator.build` (generator.py, lines 1476-1478): exactly one file,
`<build_dir>/<name>.html`, opened and written once.  Nothing in the page
pass (lines 1443-1490) reads a permalink or derives any other output
location. -/
def pageOutputFiles (buildDir : String) (page : Page) : List String :=
  [osJoin2 buildDir (page.name ++ ".html")]

/-- All files the page pass writes, in page order. -/
def buildPagesOutputFiles (buildDir : String) (pages : List Page) :
    List String :=
  (pages.map (pageOutputFiles buildDir)).flatten

/-! ### `Server.serve` with auto-rebuild (server.py, lines 177-194) -/

/-- The contents of the build directory `_site` after a successful build. -/
structure SiteBuild where
  files : List (String × String)
  deriving DecidableEq, Repr

/-- The outcome of the `generator.build(...)` call inside the loop: a new
site, or the fatal failure (a `FloresError` subclass in library mode, which
the loop's `except FloresError` catches). -/
inductive BuildOutcome where
  | ok (site : SiteBuild)
  | err (f : Failure)
  deriving DecidableEq, Repr

/-- What `generator.build` leaves in the build directory: the new site on
success; nothing on failure, because `Generator.build` starts by purging the
previous build (`self.clean()`, line 1413) and the failing path's
`Generator.__fail` runs `self.clean()` again before raising (clean_up
defaults to True), removing the partially-written directory. -/
def buildDirAfter : BuildOutcome → Option SiteBuild
  | .ok site => some site
  | .err _ => none

/-- The serve-relevant state carried across iterations of the auto-rebuild
loop: the fingerprint stored in `resource_hash`, and the current contents of
the served build directory (`none` when a failed build's cleanup removed
it). -/
structure ServeState where
  resourceHash : ℤ
  siteDir : Option SiteBuild
  deriving DecidableEq, Repr

/-- The observable events of one loop iteration. -/
structure ServeStepEvents where
  rebuildAttempted : Bool
  warningLogged : Bool
  deriving DecidableEq, Repr

/-- One iteration of the auto-rebuild loop (server.py, lines 180-194):
recompute the fingerprint; if unchanged, do nothing.  If changed, store the
new fingerprint (`resource_hash = new_resource_hash`, line 186 — before the
build is attempted), then try the rebuild; a `FloresError` is caught and
logged as the warning "Failed to rebuild site.", and the iteration ends
normally either way. -/
def serveStep (st : ServeState) (newHash : ℤ) (build : BuildOutcome) :
    ServeState × ServeStepEvents :=
  if newHash ≠ st.resourceHash then
    match build with
    | .ok site =>
      ({ resourceHash := newHash, siteDir := some site },
        { rebuildAttempted := true, warningLogged := false })
    | .err _ =>
      ({ resourceHash := newHash, siteDir := buildDirAfter build },
        { rebuildAttempted := true, warningLogged := true })
  else
    (st, { rebuildAttempted := false, warningLogged := false })

/-- The `while True` loop: the steps run one after the other; no iteration
raises, so every scheduled poll is processed. -/
def serveLoop (st : ServeState) : List (ℤ × BuildOutcome) → ServeState
  | [] => st
  | (h, b) :: rest => serveLoop (serveStep st h b).1 rest

/-! ### Concrete interface instances used by the closed theorems below -/

/-- A concrete `yaml.safe_load` for the block `"a: [\n"`: PyYAML's parser
raises `yaml.parser.ParserError` ("while parsing a flow node ... expected
the node content, but found end of stream") on an unclosed flow
sequence. -/
def yamlParserAtUnclosedBracket (s : String) : YamlOutcome :=
  if s = "a: [\n" then .parserError else .ok .null

/-- A concrete `yaml.safe_load` returning the frontmatter mapping
`{t: 1}`. -/
def yamlConstT1 (_ : String) : YamlOutcome :=
  .ok (.obj [("t", .num 1)])

/-- A concrete `yaml.safe_load` returning a minimal valid post frontmatter
mapping (`template` and `title` only). -/
def yamlPostMinimal (_ : String) : YamlOutcome :=
  .ok (.obj [("template", .str "main"), ("title", .str "T")])

/-- A concrete `yaml.safe_load` returning a post frontmatter whose declared
`date` year (2023) disagrees with a 2022 filename. -/
def yamlPostWrongYear (_ : String) : YamlOutcome :=
  .ok (.obj [("template", .str "main"), ("title", .str "T"),
    ("date", .str "2023-09-04 00:00:00 +0000")])

/-- A concrete `yaml.safe_load` returning a page frontmatter that declares
`permalink: /foo/bar`. -/
def yamlPageWithPermalink (_ : String) : YamlOutcome :=
  .ok (.obj [("template", .str "main"), ("permalink", .str "/foo/bar")])

/-- The page collected from `/proj/_pages/about.md` under
`yamlPageWithPermalink`. -/
def pageAboutWithPermalink : Page :=
  { template := "main"
    content := "Hello."
    name := "about"
    source_file := "/proj/_pages/about.md"
    extra := [("template", .str "main"), ("permalink", .str "/foo/bar")] }

/-- The post collected from `/p/_posts/2022-09-04-a.md` (midnight UTC
synthesized from the filename; 2022-09-04 was a Sunday). -/
def postSept2022 : Post :=
  { template := "main"
    title := "T"
    date :=
      { year := "2022", month := "9", month_padded := "09"
        month_name := "September", month_name_short := "Sep"
        day := "4", day_padded := "04"
        day_name := "Sunday", day_name_short := "Sun"
        timestamp := 1662249600 }
    categories := []
    tags := []
    content := "A"
    name := "a"
    source_file := "/p/_posts/2022-09-04-a.md"
    base_address := "2022/09/04"
    url := "/2022/09/04/a"
    is_draft := false
    extra := [] }

/-- The post collected from `/p/_posts/2023-01-02-b.md` (2023-01-02 was a
Monday). -/
def postJan2023 : Post :=
  { template := "main"
    title := "T"
    date :=
      { year := "2023", month := "1", month_padded := "01"
        month_name := "January", month_name_short := "Jan"
        day := "2", day_padded := "02"
        day_name := "Monday", day_name_short := "Mon"
        timestamp := 1672617600 }
    categories := []
    tags := []
    content := "B"
    name := "b"
    source_file := "/p/_posts/2023-01-02-b.md"
    base_address := "2023/01/02"
    url := "/2023/01/02/b"
    is_draft := false
    extra := [] }

/-! ## Theorems -/

/-- C7 counterexample: the fatal failure raised by `Generator.__init__` for
an invalid project directory passes `clean_up=False` to `__fail`, so this
fatal failure surfaces (as the typed `FileOrDirNotFoundError` in library
mode) without the build-directory cleanup being attempted — refuting the
claim's "for every fatal failure ... the cleanup is attempted". -/
theorem c7_counterexample :
    (Generator.initProjectDirFail false "this-is-not-there").cleanupAttempted
        = false ∧
      (Generator.initProjectDirFail false "this-is-not-there").surface =
        .raised .FileOrDirNotFoundError
          "Invalid project directory: 'this-is-not-there'." :=
  ⟨rfl, rfl⟩

/-- C7 amended: every `Generator.__fail` call attempts the cleanup exactly
when its `clean_up` argument says so (all call sites pass the default
`True`, except the invalid-project-directory check at construction, which
passes `False`); then CLI mode exits with the taxonomy's fixed numeric code
(3 file/dir not found, 4 missing element, 5 wrong type/format, 6 template,
7 YAML, 8 JSON, 9 image) and library mode raises the exception class mapped
from the code, carrying the formatted message. -/
theorem c7_fail_contract_amended (message : String) (code : FloresErrorCode)
    (cleanUp : Bool) :
    (∀ cliMode,
      (Generator.fail cliMode message code cleanUp).cleanupAttempted
        = cleanUp) ∧
    (Generator.fail true message code cleanUp).surface = .cliExit code.val ∧
    (Generator.fail false message code cleanUp).surface =
      .raised (ERROR_CODE_EXCEPTION_MAP code) message ∧
    (∀ cliMode dir,
      (Generator.initProjectDirFail cliMode dir).cleanupAttempted = false) ∧
    FloresErrorCode.FILE_OR_DIR_NOT_FOUND.val = 3 ∧
    FloresErrorCode.MISSING_ELEMENT.val = 4 ∧
    FloresErrorCode.WRONG_TYPE_OR_FORMAT.val = 5 ∧
    FloresErrorCode.TEMPLATE_ERROR.val = 6 ∧
    FloresErrorCode.YAML_ERROR.val = 7 ∧
    FloresErrorCode.JSON_ERROR.val = 8 ∧
    FloresErrorCode.IMAGE_ERROR.val = 9 :=
  ⟨fun _ => rfl, rfl, rfl, fun _ _ => rfl,
    rfl, rfl, rfl, rfl, rfl, rfl, rfl⟩

/-- C3 counterexample: a 3×3 source image with the derivative spec
`size = 1/2` is resized to 1×1 pixels — `int(3 * 0.5) = int(1.5) = 1` —
while the claim's `round(original_dimension * size)` predicts
`round(1.5) = 2` per axis. -/
theorem c3_counterexample :
    buildImageDerivative (some ⟨3, 3⟩) ⟨1/2, "-half", false⟩ =
        .resized 1 1 false ∧
      pyRound ((3 : ℚ) * (1/2)) = 2 ∧
      (buildImageDerivative (some ⟨3, 3⟩) ⟨1/2, "-half", false⟩).dims ≠
        some ((pyRound ((3 : ℚ) * (1/2))).toNat,
          (pyRound ((3 : ℚ) * (1/2))).toNat) := by
  have ha : buildImageDerivative (some ⟨3, 3⟩) ⟨1/2, "-half", false⟩ =
      .resized 1 1 false := by
    unfold buildImageDerivative
    rw [if_neg (by norm_num)]
    unfold destImageSize
    norm_num
  have hb : pyRound ((3 : ℚ) * (1/2)) = 2 := by
    unfold pyRound
    norm_num
  refine ⟨ha, hb, ?_⟩
  rw [ha, hb]
  decide

/-- C3 amended: for every decodable source image and every derivative spec
with `size < 1`, the output pixel dimensions per axis equal
`int(original_dimension * size)`, i.e. the floor of the product (Python's
`int()` truncates toward zero), not its rounding. -/
theorem c3_resize_dims_amended (img : SourceImage) (cfg : ImageConfig)
    (h : cfg.size < 1) :
    (buildImageDerivative (some img) cfg).dims =
      some ((⌊(img.width : ℚ) * cfg.size⌋).toNat,
        (⌊(img.height : ℚ) * cfg.size⌋).toNat) := by
  have hne : ¬(cfg.size = 1 ∧ cfg.optimize = false) := by
    rintro ⟨h1, _⟩
    rw [h1] at h
    exact lt_irrefl 1 h
  simp [buildImageDerivative, hne, destImageSize, ImageBuildResult.dims]

/-- C3 amended, witness at the 3×3 image and `size = 1/2`. -/
theorem c3_resize_dims_amended_witness :
    (buildImageDerivative (some ⟨3, 3⟩) ⟨1/2, "-half", false⟩).dims =
      some (1, 1) := by
  rw [c3_resize_dims_amended ⟨3, 3⟩ ⟨1/2, "-half", false⟩ (by norm_num)]
  norm_num

/-- C2 counterexample: a serve-loop iteration that sees a changed
fingerprint and a failing rebuild.  The stored fingerprint becomes the new
one even though the rebuild failed (the source assigns `resource_hash =
new_resource_hash` before the `try`), and the previously built output is
gone (the failing build's cleanup removed the build directory), so the
claim's "fingerprint is updated only when that rebuild succeeds" and
"previously built output remains in place" are both false here. -/
theorem c2_counterexample :
    (serveStep ⟨0, some ⟨[("index.html", "hi")]⟩⟩ 1
        (.err ⟨.TEMPLATE_ERROR, "boom"⟩)).1.resourceHash = 1 ∧
      (serveStep ⟨0, some ⟨[("index.html", "hi")]⟩⟩ 1
        (.err ⟨.TEMPLATE_ERROR, "boom"⟩)).1.siteDir = none ∧
      (serveStep ⟨0, some ⟨[("index.html", "hi")]⟩⟩ 1
        (.err ⟨.TEMPLATE_ERROR, "boom"⟩)).2.warningLogged = true := by
  refine ⟨by decide, by decide, by decide⟩

/-- C2 amended: when the resource fingerprint changes, a rebuild is
attempted and the stored fingerprint is updated to the new value
immediately, regardless of the rebuild's outcome; a successful rebuild
leaves the new site in the build directory with no warning; a failed
rebuild logs the non-fatal "Failed to rebuild site." warning and the loop
keeps running (the next scheduled polls are processed), but the build
directory has been emptied by the failure's cleanup, so the previous
successful build is no longer in place. -/
theorem c2_rebuild_loop_amended (st : ServeState) (newHash : ℤ)
    (build : BuildOutcome) (rest : List (ℤ × BuildOutcome))
    (hchange : newHash ≠ st.resourceHash) :
    (serveStep st newHash build).2.rebuildAttempted = true ∧
    (serveStep st newHash build).1.resourceHash = newHash ∧
    (∀ site, build = .ok site →
      (serveStep st newHash build).1.siteDir = some site ∧
      (serveStep st newHash build).2.warningLogged = false) ∧
    (∀ f, build = .err f →
      (serveStep st newHash build).1.siteDir = none ∧
      (serveStep st newHash build).2.warningLogged = true) ∧
    serveLoop st ((newHash, build) :: rest) =
      serveLoop (serveStep st newHash build).1 rest := by
  cases build <;>
    simp [serveStep, serveLoop, hchange, buildDirAfter]

/-- C2 amended, witness: one changed-fingerprint iteration with a failing
rebuild, at concrete state and inputs. -/
theorem c2_rebuild_loop_amended_witness :
    (serveStep ⟨0, some ⟨[("index.html", "hi")]⟩⟩ 1
        (.err ⟨.TEMPLATE_ERROR, "boom"⟩)).2.rebuildAttempted = true :=
  (c2_rebuild_loop_amended ⟨0, some ⟨[("index.html", "hi")]⟩⟩ 1
    (.err ⟨.TEMPLATE_ERROR, "boom"⟩) [] (by decide)).1

/-- C1: evaluation of the page pipeline at the claim's scenario.  A page
file whose frontmatter declares `permalink: /foo/bar` is collected with the
permalink carried as an inert extra key, and the build's page pass writes
exactly one artifact, `<build_dir>/about.html` — neither `foo/bar.html` nor
`foo/bar/index.html` is produced, because no code in `collect_pages` or
`build` reads a permalink (the claims' permalink behavior exists only in
the repository's tests, not in the source). -/
theorem c1_build_ignores_permalink :
    collectPage yamlPageWithPermalink
        ("/proj/_pages/about.md", "---\nfm\n---\nHello.") =
      .ok pageAboutWithPermalink ∧
    buildPagesOutputFiles "/proj/_site" [pageAboutWithPermalink] =
      ["/proj/_site/about.html"] ∧
    "/proj/_site/foo/bar.html" ∉
      buildPagesOutputFiles "/proj/_site" [pageAboutWithPermalink] ∧
    "/proj/_site/foo/bar/index.html" ∉
      buildPagesOutputFiles "/proj/_site" [pageAboutWithPermalink] := by
  refine ⟨rfl, by decide, by decide, by decide⟩

/-- Support: `re.search` skips a prefix at whose positions the pattern does
not match — the leftmost match of `fmSearch` is unchanged by prepending
match-free text. -/
theorem fmSearch_append_of_no_match (pre s₀ : List Char)
    (h : ∀ i < pre.length, fmMatchHere (pre.drop i ++ s₀) = none) :
    fmSearch (pre ++ s₀) = fmSearch s₀ := by
  induction pre with
  | nil => rfl
  | cons p ps ih =>
    have h0 := h 0 (by simp)
    rw [List.drop_zero] at h0
    show fmSearch (p :: (ps ++ s₀)) = fmSearch s₀
    rw [show ((p :: ps) ++ s₀ : List Char) = p :: (ps ++ s₀) from rfl] at h0
    simp only [fmSearch, h0]
    exact ih (fun i hi => by
      have hstep := h (i + 1) (by simpa using Nat.succ_lt_succ hi)
      simpa using hstep)

/-- Support: the pattern matches at the head of a well-formed block whose
group contains the first closing `---` exactly at its end. -/
theorem fmMatchHere_block (grp after : List Char)
    (hgrp : findTripleDash (grp ++ dashes ++ after) = some grp.length) :
    fmMatchHere (openDelim ++ (grp ++ dashes ++ after)) = some (grp, after)
    := by
  have hpre : openDelim.isPrefixOf
      (openDelim ++ (grp ++ dashes ++ after)) = true := by
    rw [List.isPrefixOf_iff_prefix]
    exact List.prefix_append _ _
  have hdrop : (openDelim ++ (grp ++ dashes ++ after)).drop 4 =
      grp ++ dashes ++ after := by
    rw [show (4 : ℕ) = openDelim.length from rfl]
    exact List.drop_left _ _
  have htake : (grp ++ dashes ++ after).take grp.length = grp := by
    rw [List.append_assoc]
    exact List.take_left _ _
  have hdrop2 : (grp ++ dashes ++ after).drop (grp.length + 3) = after := by
    rw [show grp.length + 3 = (grp ++ dashes).length by simp [dashes]]
    exact List.drop_left _ _
  unfold fmMatchHere
  rw [if_pos hpre, hdrop]
  simp only [hgrp, htake, hdrop2]

/-- Support: a head match is the search result. -/
theorem fmSearch_cons_of_match (c : Char) (cs : List Char)
    (r : List Char × List Char) (h : fmMatchHere (c :: cs) = some r) :
    fmSearch (c :: cs) = some r := by
  simp only [fmSearch, h]

/-- C8: a source file whose contents the frontmatter pattern does not match
anywhere fails as a fatal `MissingElementError` whose message cites exactly
that file's path, "<file>: Missing frontmatter."; a file whose frontmatter
block is present but empty (an empty regex group, loaded by `yaml.safe_load`
as `None`) parses successfully to the empty mapping. -/
theorem c8_frontmatter_missing_and_empty (yaml : String → YamlOutcome)
    (filepath content : String) :
    (fmSearch content.data = none →
      parseFrontmatterFile yaml filepath content =
        .fatal ⟨.MISSING_ELEMENT, filepath ++ ": Missing frontmatter."⟩) ∧
    (∀ rest, fmSearch content.data = some ([], rest) →
      yaml "" = .ok .null →
      parseFrontmatterFile yaml filepath content =
        .ok (.obj [], ⟨pyStrip rest⟩)) := by
  constructor
  · intro h
    simp only [parseFrontmatterFile, h]
  · intro rest h hy
    have hy0 : yaml ⟨([] : List Char)⟩ = .ok .null := hy
    simp only [parseFrontmatterFile, h, hy0]
    rfl

/-- C8, witness: a file with no delimiters at all, and a file whose block is
exactly `---\n---`. -/
theorem c8_frontmatter_missing_and_empty_witness :
    parseFrontmatterFile (fun _ => .ok .null) "/p/_pages/empty.md"
        "Whoops!" =
      .fatal ⟨.MISSING_ELEMENT, "/p/_pages/empty.md: Missing frontmatter."⟩ ∧
    parseFrontmatterFile (fun _ => .ok .null) "/p/_pages/b.md"
        "---\n---\nHello" =
      .ok (.obj [], "Hello") := by
  constructor
  · exact (c8_frontmatter_missing_and_empty (fun _ => .ok .null)
      "/p/_pages/empty.md" "Whoops!").1 (by decide)
  · exact (c8_frontmatter_missing_and_empty (fun _ => .ok .null)
      "/p/_pages/b.md" "---\n---\nHello").2 "\nHello".data (by decide) rfl

/-- C9 counterexample: a malformed frontmatter block on which the delegated
YAML parser raises a `ScannerError` (an unterminated single-quoted scalar)
is not converted to the fatal `YAMLError` — the `except yaml.parser.
ParserError` clause does not catch it, and the exception propagates
uncaught.  This refutes "for every possible way the block can be
malformed". -/
theorem c9_counterexample :
    parseFrontmatterFile yamlScannerAtUnterminatedQuote "/p/_pages/bad.md"
        "---\na: 'x\n---" =
      .uncaught "yaml.scanner.ScannerError" ∧
    parseFrontmatterFile yamlScannerAtUnterminatedQuote "/p/_pages/bad.md"
        "---\na: 'x\n---" ≠
      .fatal ⟨.YAML_ERROR,
        "/p/_pages/bad.md: Error parsing frontmatter (invalid YAML)."⟩ := by
  have h : parseFrontmatterFile yamlScannerAtUnterminatedQuote
      "/p/_pages/bad.md" "---\na: 'x\n---" =
      .uncaught "yaml.scanner.ScannerError" := rfl
  refine ⟨h, ?_⟩
  rw [h]
  simp

/-- C9 amended: a present frontmatter block on which `yaml.safe_load` raises
a `yaml.parser.ParserError` fails as the fatal `YAMLError` (taxonomy code 7)
with the message "<file>: Error parsing frontmatter (invalid YAML)."; other
YAML failures (e.g. scanner errors) propagate uncaught instead. -/
theorem c9_parser_error_amended (yaml : String → YamlOutcome)
    (filepath content : String) (grp rest : List Char)
    (h : fmSearch content.data = some (grp, rest))
    (hy : yaml ⟨grp⟩ = .parserError) :
    parseFrontmatterFile yaml filepath content =
      .fatal ⟨.YAML_ERROR,
        filepath ++ ": Error parsing frontmatter (invalid YAML)."⟩ := by
  simp only [parseFrontmatterFile, h, hy]

/-- C9 amended, witness: an unclosed flow sequence, on which PyYAML's parser
stage raises `ParserError`. -/
theorem c9_parser_error_amended_witness :
    parseFrontmatterFile yamlParserAtUnclosedBracket "/p/_pages/bad2.md"
        "---\na: [\n---" =
      .fatal ⟨.YAML_ERROR,
        "/p/_pages/bad2.md: Error parsing frontmatter (invalid YAML)."⟩ :=
  c9_parser_error_amended yamlParserAtUnclosedBracket "/p/_pages/bad2.md"
    "---\na: [\n---" "a: [\n".data [] (by decide) rfl

/-- C10: frontmatter detection is not anchored to the start of the file.
For a file of the shape `<pre><block><after>` where the pattern matches at
no position inside `<pre>` and `<block>` is a three-dash-delimited block
whose first closing `---` sits exactly at the group's end, parsing succeeds
using that first block: the frontmatter comes from the block's group alone,
the returned content is the text after the block (stripped), and the
preceding text `<pre>` appears in neither. -/
theorem c10_frontmatter_unanchored (yaml : String → YamlOutcome)
    (filepath : String) (pre grp after : List Char) (v : Val)
    (hpre : ∀ i < pre.length,
      fmMatchHere (pre.drop i ++ (openDelim ++ (grp ++ dashes ++ after)))
        = none)
    (hgrp : findTripleDash (grp ++ dashes ++ after) = some grp.length)
    (hy : yaml ⟨grp⟩ = .ok v) :
    parseFrontmatterFile yaml filepath
        ⟨pre ++ (openDelim ++ (grp ++ dashes ++ after))⟩ =
      .ok ((if pyFalsy v then Val.obj [] else v), ⟨pyStrip after⟩) := by
  have hsearch : fmSearch (pre ++ (openDelim ++ (grp ++ dashes ++ after)))
      = some (grp, after) := by
    rw [fmSearch_append_of_no_match pre _ hpre]
    exact fmSearch_cons_of_match _ _ _ (fmMatchHere_block grp after hgrp)
  have hsearch2 : fmSearch
      (String.data ⟨pre ++ (openDelim ++ (grp ++ dashes ++ after))⟩)
      = some (grp, after) := hsearch
  simp only [parseFrontmatterFile, hsearch2, hy]

/-- Support: popping one string key leaves lookups of a different string
key unchanged (two distinct string literals never compare equal under
Python key equality, whatever the entry's key is). -/
theorem pyLookup_pyErase_str_ne (a b : String) (h : a ≠ b)
    (kvs : List (PyKey × Val)) :
    pyLookup (.kStr a) (pyErase (.kStr b) kvs) = pyLookup (.kStr a) kvs := by
  induction kvs with
  | nil => rfl
  | cons kv rest ih =>
    obtain ⟨k0, v0⟩ := kv
    cases k0 with
    | kStr s =>
      by_cases hb : s = b
      · subst hb
        have hna : ¬(s = a) := fun hc => h (hc ▸ rfl)
        simp [pyErase, pyLookup, pyKeyBeq, hna]
        simpa [pyErase] using ih
      · by_cases ha : s = a
        · subst ha
          simp [pyErase, pyLookup, pyKeyBeq, hb]
        · simp [pyErase, pyLookup, pyKeyBeq, hb, ha]
          simpa [pyErase] using ih
    | kNum q =>
      simp [pyErase, pyLookup, pyKeyBeq]
      simpa [pyErase] using ih
    | kBool b0 =>
      simp [pyErase, pyLookup, pyKeyBeq]
      simpa [pyErase] using ih
    | kNone =>
      simp [pyErase, pyLookup, pyKeyBeq]
      simpa [pyErase] using ih

/-- Support: the claim's leftover keys (one direct filter on the original
mapping) agree with the source's three successive pops. -/
theorem specLeftoverKeys_eq (kvs : List (PyKey × Val)) :
    specLeftoverKeys kvs =
      (pyErase (.kStr "optimize")
        (pyErase (.kStr "suffix")
          (pyErase (.kStr "size") kvs))).map Prod.fst := by
  induction kvs with
  | nil => rfl
  | cons kv rest ih =>
    obtain ⟨k0, v0⟩ := kv
    cases k0 with
    | kStr s =>
      by_cases h1 : s = "size"
      · simp [specLeftoverKeys, pyErase, pyKeyBeq, h1]
        simpa [specLeftoverKeys, pyErase] using ih
      · by_cases h2 : s = "suffix"
        · simp [specLeftoverKeys, pyErase, pyKeyBeq, h2]
          simpa [specLeftoverKeys, pyErase] using ih
        · by_cases h3 : s = "optimize"
          · simp [specLeftoverKeys, pyErase, pyKeyBeq, h3]
            simpa [specLeftoverKeys, pyErase] using ih
          · simp [specLeftoverKeys, pyErase, pyKeyBeq, h1, h2, h3]
            simpa [specLeftoverKeys, pyErase] using ih
    | kNum q =>
      simp [specLeftoverKeys, pyErase, pyKeyBeq]
      simpa [specLeftoverKeys, pyErase] using ih
    | kBool b0 =>
      simp [specLeftoverKeys, pyErase, pyKeyBeq]
      simpa [specLeftoverKeys, pyErase] using ih
    | kNone =>
      simp [specLeftoverKeys, pyErase, pyKeyBeq]
      simpa [specLeftoverKeys, pyErase] using ih

/-- Support: on every mapping `dict()` can produce, the source's
interleaved pop-and-check sequence computes exactly the claim-ordered
checklist over the original mapping. -/
theorem validateImageDict_eq_spec (kvs : List (PyKey × Val)) :
    validateImageDict kvs = specImageElement kvs := by
  unfold validateImageDict specImageElement
  cases hsize : pyLookup (.kStr "size") kvs with
  | none => rfl
  | some sv =>
    cases sv with
    | num q =>
      dsimp only
      by_cases hr : q ≤ 0 ∨ 1 < q
      · rw [if_pos hr, if_pos hr]
      · rw [if_neg hr, if_neg hr]
        rw [pyLookup_pyErase_str_ne "suffix" "size" (by decide) kvs]
        cases hsuf : pyLookup (.kStr "suffix") kvs with
        | none => rfl
        | some sfv =>
          cases sfv with
          | str suffix =>
            dsimp only
            rw [pyLookup_pyErase_str_ne "optimize" "suffix" (by decide) _,
              pyLookup_pyErase_str_ne "optimize" "size" (by decide) kvs]
            cases hopt : pyLookup (.kStr "optimize") kvs with
            | none => rfl
            | some ov =>
              cases ov with
              | bool b =>
                dsimp only
                rw [specLeftoverKeys_eq]
              | null => rfl
              | num q2 => rfl
              | str s2 => rfl
              | list l2 => rfl
              | obj o2 => rfl
          | null => rfl
          | bool b2 => rfl
          | num q3 => rfl
          | list l3 => rfl
          | obj o3 => rfl
    | null => rfl
    | bool b4 => rfl
    | str s4 => rfl
    | list l4 => rfl
    | obj o4 => rfl

/-- C6 counterexample: an `images` list whose element is the number 5.  The
element never reaches the claimed checklist: `dict(image_config)` raises an
uncaught `TypeError` ("'int' object is not iterable") before the `size`
membership test runs, so no `MissingElementError` (nor any flores error) is
produced for it. -/
theorem c6_counterexample :
    getImageConfigs (some (.list [.num 5])) =
        .uncaught "TypeError: object is not iterable" ∧
      getImageConfigs (some (.list [.num 5])) ≠
        .fatal ⟨.MISSING_ELEMENT, imagesMissingKeyMessage "size"⟩ := by
  refine ⟨rfl, ?_⟩
  intro hcontra
  exact absurd (rfl.symm.trans hcontra) (by decide)

/-- C6 amended: when the `images` key is absent, resolution returns the
single default spec `{size: 1, suffix: "", optimize: false}`.  When the key
is a list, each element is first copied with `dict(element)`, and every
element that `dict()` converts to a mapping — a JSON object, but also e.g.
the empty string or a list of key/value pairs — is then validated
independently and in exactly the claim's order: missing `size`
(`MissingElementError`), wrong type for `size`, `size` outside (0,1],
missing `suffix`, wrong type for `suffix`, missing `optimize`, wrong type
for `optimize`, then any leftover unrecognized keys, named comma-joined.
An element that `dict()` cannot convert (such as a number) raises an
uncaught exception before any of those checks. -/
theorem c6_image_config_validation_amended :
    getImageConfigs none = .ok [⟨1, "", false⟩] ∧
    (∀ es, getImageConfigs (some (.list es)) = validateImageElements es) ∧
    (∀ e kvs, pyDict e = .ok kvs →
      validateImageElement e = specImageElement kvs) ∧
    (∀ q : ℚ, validateImageElement (.num q) =
      .uncaught "TypeError: object is not iterable") ∧
    (∀ b : Bool, validateImageElement (.bool b) =
      .uncaught "TypeError: object is not iterable") ∧
    validateImageElement .null =
      .uncaught "TypeError: object is not iterable" ∧
    validateImageElement (.str "") =
      .fatal ⟨.MISSING_ELEMENT, imagesMissingKeyMessage "size"⟩ ∧
    validateImageElement (.list [.list [.str "other", .num 1]]) =
      .fatal ⟨.MISSING_ELEMENT, imagesMissingKeyMessage "size"⟩ := by
  refine ⟨rfl, fun _ => rfl, ?_, fun _ => rfl, fun _ => rfl, rfl, rfl, rfl⟩
  intro e kvs h
  unfold validateImageElement
  rw [h]
  exact validateImageDict_eq_spec kvs

/-- C6 amended, witness: a one-key mapping element, converted by `dict()`
and validated per the checklist. -/
theorem c6_image_config_validation_amended_witness :
    validateImageElement (.obj [("size", .num 1)]) =
      specImageElement [(.kStr "size", .num 1)] := by
  have h := c6_image_config_validation_amended.2.2.1
    (.obj [("size", .num 1)]) [(.kStr "size", .num 1)] rfl
  exact h

/-- C10, witness: text precedes the first block; the preceding text is
dropped, the block's mapping is the frontmatter, and the trailing text is
the content. -/
theorem c10_frontmatter_unanchored_witness :
    parseFrontmatterFile yamlConstT1 "/p/_pages/x.md"
        "Preamble text.\n---\nt: 1\n---\nBody" =
      .ok (.obj [("t", .num 1)], "Body") := by
  have h := c10_frontmatter_unanchored yamlConstT1 "/p/_pages/x.md"
    "Preamble text.\n".data "t: 1\n".data "\nBody".data
    (.obj [("t", .num 1)]) (by decide) (by decide) rfl
  exact h

/-- C4: a post file whose frontmatter declares a `date` whose parsed year,
padded month or padded day disagrees with the filename's `YYYY-MM-DD`
prefix makes `collect_posts` fail with a fatal `WrongTypeOrFormat` error
naming the first disagreeing field in the order year, padded month, padded
day, with the message "<field> mismatch; '<filename value>' in the
filename, but '<parsed value>' in the file." (prefixed with the file's
path).  The frontmatter here carries the claim's scenario — `template`,
`title` and the offending `date` — with all of them symbolic. -/
theorem c4_date_mismatch_first_field (yaml : String → YamlOutcome)
    (draftFiles : List (String × String)) (includeDrafts : Bool)
    (path contents tpl ttl ds content : String)
    (fy fmo fd n : String) (restSegs : List String) (dt : PyDateTime)
    (hparse : parseFrontmatterFile yaml path contents =
      .ok (.obj [("template", .str tpl), ("title", .str ttl),
        ("date", .str ds)], content))
    (hsplit : splitOnDash (splitFilepathElements path).2.1 =
      fy :: fmo :: fd :: n :: restSegs)
    (hdt : strptimePostFormat ds = some dt)
    (hmis : fy ≠ toString dt.year ∨ fmo ≠ padTwo dt.month ∨
      fd ≠ padTwo dt.day) :
    collectPosts yaml [(path, contents)] draftFiles includeDrafts =
      .fatal ⟨.WRONG_TYPE_OR_FORMAT,
        if fy ≠ toString dt.year then
          path ++ ": Year mismatch; '" ++ fy ++ "' in the filename, but '"
            ++ toString dt.year ++ "' in the file."
        else if fmo ≠ padTwo dt.month then
          path ++ ": Month mismatch; '" ++ fmo ++ "' in the filename, but '"
            ++ padTwo dt.month ++ "' in the file."
        else
          path ++ ": Day mismatch; '" ++ fd ++ "' in the filename, but '"
            ++ padTwo dt.day ++ "' in the file."⟩ := by
  have hpost : collectPost yaml (List.map Prod.fst draftFiles)
      (path, contents) =
      .fatal ⟨.WRONG_TYPE_OR_FORMAT,
        if fy ≠ toString dt.year then
          path ++ ": Year mismatch; '" ++ fy ++ "' in the filename, but '"
            ++ toString dt.year ++ "' in the file."
        else if fmo ≠ padTwo dt.month then
          path ++ ": Month mismatch; '" ++ fmo ++ "' in the filename, but '"
            ++ padTwo dt.month ++ "' in the file."
        else
          path ++ ": Day mismatch; '" ++ fd ++ "' in the filename, but '"
            ++ padTwo dt.day ++ "' in the file."⟩ := by
    unfold collectPost
    dsimp only
    rw [hparse]
    dsimp only
    rcases hsf : splitFilepathElements path with ⟨d0, fname, e0⟩
    rw [hsf] at hsplit
    dsimp only at hsplit
    dsimp only
    rw [hsplit]
    show finishPost path content tpl ttl [] [] fy fmo fd
      (String.intercalate "-" (n :: restSegs)) []
      ((List.map Prod.fst draftFiles).contains path) ds = _
    unfold finishPost
    rw [hdt]
    dsimp only
    unfold checkDateMismatch
    dsimp only [postDateInfoOf]
    by_cases h1 : fy ≠ toString dt.year
    · rw [if_pos h1, if_pos h1]
    · rw [if_neg h1, if_neg h1]
      by_cases h2 : fmo ≠ padTwo dt.month
      · rw [if_pos h2, if_pos h2]
      · rw [if_neg h2, if_neg h2]
        by_cases h3 : fd ≠ padTwo dt.day
        · rw [if_pos h3]
        · rcases hmis with h | h | h
          · exact absurd h h1
          · exact absurd h h2
          · exact absurd h h3
  unfold collectPosts
  dsimp only
  rw [List.singleton_append]
  simp only [collectPostsLoop, hpost]

/-- C4, witness: the post file `/p/_posts/2022-09-04-a.md` with frontmatter
date `2023-09-04 00:00:00 +0000`: the year disagrees first. -/
theorem c4_date_mismatch_first_field_witness :
    collectPosts yamlPostWrongYear
        [("/p/_posts/2022-09-04-a.md", "---\nfm\n---\nA")] [] false =
      .fatal ⟨.WRONG_TYPE_OR_FORMAT,
        "/p/_posts/2022-09-04-a.md: Year mismatch; '2022' in the filename, "
          ++ "but '2023' in the file."⟩ := by
  have h := c4_date_mismatch_first_field yamlPostWrongYear [] false
    "/p/_posts/2022-09-04-a.md" "---\nfm\n---\nA" "main" "T"
    "2023-09-04 00:00:00 +0000" "A" "2022" "09" "04" "a" []
    ⟨2023, 9, 4, 0, 0, 0, 0⟩ rfl (by decide) rfl
    (Or.inl (by decide))
  rw [h]
  rw [if_pos (by decide)]
  rfl

/-- Support: an element of the insertion is the inserted post or one of the
old ones. -/
theorem mem_insertPostByTsDesc (p x : Post) (l : List Post)
    (h : x ∈ insertPostByTsDesc p l) : x = p ∨ x ∈ l := by
  induction l with
  | nil =>
    simp only [insertPostByTsDesc, List.mem_singleton] at h
    exact Or.inl h
  | cons q qs ih =>
    by_cases hq : q.date.timestamp < p.date.timestamp
    · rw [insertPostByTsDesc, if_pos hq] at h
      rcases List.mem_cons.mp h with h | h
      · exact Or.inl h
      · exact Or.inr h
    · rw [insertPostByTsDesc, if_neg hq] at h
      rcases List.mem_cons.mp h with h | h
      · exact Or.inr (List.mem_cons.mpr (Or.inl h))
      · rcases ih h with h | h
        · exact Or.inl h
        · exact Or.inr (List.mem_cons.mpr (Or.inr h))

/-- Support: inserting into a descending-by-timestamp list keeps it
descending. -/
theorem pairwise_insertPostByTsDesc (p : Post) (l : List Post)
    (hl : l.Pairwise (fun a b => b.date.timestamp ≤ a.date.timestamp)) :
    (insertPostByTsDesc p l).Pairwise
      (fun a b => b.date.timestamp ≤ a.date.timestamp) := by
  induction l with
  | nil => simp [insertPostByTsDesc]
  | cons q qs ih =>
    rcases List.pairwise_cons.mp hl with ⟨hq, hqs⟩
    by_cases hlt : q.date.timestamp < p.date.timestamp
    · rw [insertPostByTsDesc, if_pos hlt]
      refine List.pairwise_cons.mpr ⟨?_, hl⟩
      intro x hx
      rcases List.mem_cons.mp hx with rfl | hx
      · exact hlt.le
      · exact (hq x hx).trans hlt.le
    · rw [insertPostByTsDesc, if_neg hlt]
      refine List.pairwise_cons.mpr ⟨?_, ih hqs⟩
      intro x hx
      rcases mem_insertPostByTsDesc p x qs hx with rfl | hx
      · exact le_of_not_lt hlt
      · exact hq x hx

/-- Support: the fold of insertions produces a descending list from any
descending accumulator. -/
theorem pairwise_sortPostsByTsDesc (ps : List Post) :
    (sortPostsByTsDesc ps).Pairwise
      (fun a b => b.date.timestamp ≤ a.date.timestamp) := by
  suffices hgen : ∀ acc : List Post,
      acc.Pairwise (fun a b => b.date.timestamp ≤ a.date.timestamp) →
      (List.foldl (fun acc p => insertPostByTsDesc p acc) acc ps).Pairwise
        (fun a b => b.date.timestamp ≤ a.date.timestamp) by
    exact hgen [] (by simp)
  induction ps with
  | nil => intro acc hacc; exact hacc
  | cons p ps ih =>
    intro acc hacc
    exact ih _ (pairwise_insertPostByTsDesc p acc hacc)

/-- C5: whenever `collect_posts` succeeds, the returned list is sorted by
the posts' date timestamp in descending order — newest post first (each
post's timestamp is at least the timestamp of every later one). -/
theorem c5_posts_sorted_desc (yaml : String → YamlOutcome)
    (postFiles draftFiles : List (String × String)) (includeDrafts : Bool)
    (posts : List Post)
    (h : collectPosts yaml postFiles draftFiles includeDrafts = .ok posts) :
    posts.Pairwise (fun a b => b.date.timestamp ≤ a.date.timestamp) := by
  unfold collectPosts at h
  dsimp only at h
  cases hloop : collectPostsLoop yaml (List.map Prod.fst draftFiles)
      (postFiles ++ if includeDrafts then draftFiles else []) with
  | ok l =>
    rw [hloop] at h
    dsimp only at h
    have hl : sortPostsByTsDesc l = posts := by
      injection h
    exact hl ▸ pairwise_sortPostsByTsDesc l
  | fatal e =>
    rw [hloop] at h
    exact absurd h (by simp)
  | uncaught e =>
    rw [hloop] at h
    exact absurd h (by simp)

/-- C5, witness: two concrete post files, given oldest-first, are returned
newest-first by `collect_posts`. -/
theorem c5_posts_sorted_desc_witness :
    collectPosts yamlPostMinimal
        [("/p/_posts/2022-09-04-a.md", "---\nfm\n---\nA"),
          ("/p/_posts/2023-01-02-b.md", "---\nfm\n---\nB")] [] false =
      .ok [postJan2023, postSept2022] ∧
    [postJan2023, postSept2022].Pairwise
      (fun a b => b.date.timestamp ≤ a.date.timestamp) :=
  ⟨rfl, c5_posts_sorted_desc yamlPostMinimal
    [("/p/_posts/2022-09-04-a.md", "---\nfm\n---\nA"),
      ("/p/_posts/2023-01-02-b.md", "---\nfm\n---\nB")] [] false
    [postJan2023, postSept2022] rfl⟩

end Flores
